import Mathlib

/-!
Verification of `utils_maintenance/autopep8_format_paths.py`.

The script is shallowly embedded below.  Pure string manipulation is
translated directly; the operating-system and subprocess boundary
(`os.path.isfile`, `os.path.exists`, `os.sep`, `subprocess.check_output`)
is abstracted into an explicit environment record so that `main` becomes a
pure function from an environment and parsed arguments to an outcome.
Python runtime exceptions that the script can actually raise on the
modelled paths (`AttributeError` from `None.split()`, `ValueError` from
`int(...)`, `IndexError` from `version[2]`) are made explicit with an
`Except` result.
-/

namespace Autopep8

/-- Python exceptions reachable in the modelled code paths. -/
inductive PyError where
  | attributeError : PyError
  | valueError : PyError
  | indexError : PyError
deriving DecidableEq, Repr

/-- `VERSION_MIN = (1, 6, 0)` (line 8).  Version tuples are modelled as
`List Nat` because the parsed tuple's length depends on the input. -/
def VERSION_MIN : List Nat := [1, 6, 0]

/-- `VERSION_MAX_RECOMMENDED = (1, 6, 0)` (line 9). -/
def VERSION_MAX_RECOMMENDED : List Nat := [1, 6, 0]

/-- `extensions = (".py",)` (lines 16-18). -/
def extensions : List String := [".py"]

/-- `ignore_files` (lines 20-22). -/
def ignore_files : List String := ["release/scripts/modules/rna_manual_reference.py"]

/-- Default path list assigned when `use_default_paths` holds (lines 28-34). -/
def default_paths : List String := ["build_files", "release", "doc", "source", "tests"]

/-- Python tuple comparison `a < b`: lexicographic, a strict prefix is
smaller. -/
def verLt : List Nat → List Nat → Bool
  | [], [] => false
  | [], _ :: _ => true
  | _ :: _, [] => false
  | a :: as, b :: bs => if a < b then true else if b < a then false else verLt as bs

/-- Python `s.endswith(t)`, on the character lists underlying the strings. -/
def pyEndsWith (s t : String) : Bool := t.data.isSuffixOf s.data

/-- Python `f.endswith(extensions)` for a tuple of suffixes: true when some
member of the tuple is a suffix of `f`. -/
def endswithAny (f : String) (exts : List String) : Bool :=
  exts.any (fun e => pyEndsWith f e)

/-- Python `s.replace("/", sep)` restricted to the case used by the script:
every `'/'` character is replaced by the separator string `sep`. -/
def pyReplaceSlash (sep : String) (s : String) : String :=
  ⟨s.data.flatMap (fun c => if c = '/' then sep.data else [c])⟩

/-- `compute_paths` before the separator normalization of lines 41-42:
the body of lines 27-39.  `isfile` stands for `os.path.isfile`. -/
def compute_paths_unnormalized (isfile : String → Bool)
    (paths : List String) (use_default_paths : Bool) : List String :=
  if use_default_paths then
    default_paths
  else
    paths.filter (fun f => !isfile f || endswithAny f extensions)

/-- `compute_paths(paths, use_default_paths)` (lines 25-43).  `sep` stands
for `os.sep`; when it differs from `"/"` every path is rewritten with the
host separator. -/
def compute_paths (isfile : String → Bool) (sep : String)
    (paths : List String) (use_default_paths : Bool) : List String :=
  let paths := compute_paths_unnormalized isfile paths use_default_paths
  if sep ≠ "/" then paths.map (pyReplaceSlash sep) else paths

/-- `source_files_from_git` (lines 46-52), modelled on the raw NUL-joined
output of the git subprocess (already decoded; the script decodes each
piece as ASCII).  `bytes.split(b'\0')` keeps empty pieces, in particular
the empty string after a trailing NUL, exactly like `List.splitOn`. -/
def source_files_from_git (raw : String) : List String :=
  (raw.data.splitOn '\x00').map (fun cs => String.mk cs)

/-- The comprehension of lines 166-170: keep files whose suffix is in
`extensions` and which are not in `ignore_files`. -/
def filter_files (fs : List String) : List String :=
  fs.filter (fun f => endswithAny f extensions && !(ignore_files.contains f))

/-- Python `str.split()` with no separator: split on runs of whitespace,
dropping empty pieces. -/
def pySplitWS (s : String) : List String :=
  ((s.data.splitOnP Char.isWhitespace).map (fun cs => String.mk cs)).filter
    (fun t => t ≠ "")

/-- Python `s.split(c)` for a one-character separator: split on every
occurrence, keeping empty pieces. -/
def pySplitOnChar (s : String) (c : Char) : List String :=
  (s.data.splitOn c).map (fun cs => String.mk cs)

/-- Python `int(n)` on the dot-separated version components: succeeds on a
nonempty all-digit string, otherwise raises `ValueError` (modelled as
`none`).  The forms `int` additionally accepts (signs, surrounding
whitespace, underscores) cannot reach this call site unchanged through
`str.split()` and `split("-")[0]` in a way the claims exercise, and are
not modelled. -/
def pyInt (s : String) : Option Nat :=
  if s ≠ "" && s.data.all Char.isDigit then
    some (s.data.foldl (fun acc c => 10 * acc + (c.toNat - 48)) 0)
  else none

/-- `tuple(int(n) for n in version.split("."))` (line 84): all components
must parse or the whole expression raises `ValueError`. -/
def parseComponents : List String → Option (List Nat)
  | [] => some []
  | c :: cs =>
    match pyInt c, parseComponents cs with
    | some n, some ns => some (n :: ns)
    | _, _ => none

/-- Lines 81-84 of `autopep8_ensure_version`, applied to the final value of
`version_output`.  When `version_output` is `None` (no candidate command
could be executed), `version_output.split()` raises `AttributeError`.
Otherwise the first whitespace token whose first character is a digit is
taken (`next(..., None)` yields `None` when there is none); its part
before the first `-` is split on `.` and each component converted with
`int`, which raises `ValueError` on a malformed component. -/
def parse_version (version_output : Option String) :
    Except PyError (Option (List Nat)) :=
  match version_output with
  | none => .error .attributeError
  | some out =>
    match (pySplitWS out).find? (fun v => v.front.isDigit) with
    | none => .ok none
    | some v =>
      let v0 := (pySplitOnChar v '-').headD ""
      match parseComponents (pySplitOnChar v0 '.') with
      | some ns => .ok (some ns)
      | none => .error .valueError

/-- The subprocess/OS environment of the script.  `run_version cmd` is the
result of `subprocess.check_output((cmd, "--version"))` decoded as UTF-8:
`some output` on success, `none` for `FileNotFoundError` (the only
exception the script catches; a nonzero exit of the command propagates a
`CalledProcessError` and is left outside the model as an opaque
collaborator failure).  The `sys.executable` prefix added for commands
ending in `.py` (lines 72-73) does not change which command is being
probed, so `run_version` is keyed by the command string itself. -/
structure Env where
  exists_path : String → Bool
  isfile : String → Bool
  sep : String
  run_version : String → Option String
  git_output : List String → Bool → String

/-- The candidate loop of lines 61-80: first the user-supplied command
(only when it is a nonempty string and exists on disk), then the fixed
fallback `"autopep8"`.  Returns the chosen command and its `--version`
output, or `none` when every attempted candidate raised
`FileNotFoundError`, in which case `version_output` keeps its initial
`None`. -/
def ensure_version_cmd_output (env : Env) (arg : String) :
    Option (String × String) :=
  let first : Option (String × String) :=
    if arg ≠ "" && env.exists_path arg then
      match env.run_version arg with
      | some out => some (arg, out)
      | none => none
    else none
  match first with
  | some r => some r
  | none =>
    match env.run_version "autopep8" with
    | some out => some ("autopep8", out)
    | none => none

/-- `autopep8_ensure_version` (lines 55-87).  After parsing, the success
print at line 86 formats `version[0]`, `version[1]` and `version[2]`, so a
parsed tuple with fewer than three components raises `IndexError` before
the function returns. -/
def autopep8_ensure_version (env : Env) (arg : String) :
    Except PyError (Option (List Nat)) :=
  let version_output := (ensure_version_cmd_output env arg).map (·.2)
  match parse_version version_output with
  | .error e => .error e
  | .ok none => .ok none
  | .ok (some v) => if v.length < 3 then .error .indexError else .ok (some v)

/-- Parsed command-line arguments (see `argparse_create`, lines 100-135). -/
structure Args where
  changed_only : Bool
  autopep8_command : String
  paths : List String

/-- Terminal outcome of `main`: an uncaught Python exception (the
interpreter exits with code 1), one of the two explicit `sys.exit(1)`
calls, or a normal return (exit code 0) recording whether the
too-recent warning was printed and, when the formatter was invoked, the
file list passed to it. -/
inductive Outcome where
  | crash : PyError → Outcome
  | exitVersionNone : Outcome
  | exitVersionOld : List Nat → Outcome
  | done : Bool → Option (List String) → Outcome
deriving DecidableEq, Repr

/-- Process exit code of an outcome (an uncaught exception makes the
interpreter exit with code 1). -/
def exitCode : Outcome → Nat
  | .crash _ => 1
  | .exitVersionNone => 1
  | .exitVersionOld _ => 1
  | .done _ _ => 0

/-- The file list passed to `autopep8_format`, when it was invoked. -/
def invokedFiles : Outcome → Option (List String)
  | .done _ fs => fs
  | _ => none

/-- Whether the `WARNING: Version of autopep8 is too recent` message was
printed. -/
def warnedTooRecent : Outcome → Bool
  | .done w _ => w
  | _ => false

/-- `main` (lines 138-176) as a function of the environment and the parsed
arguments. -/
def main (env : Env) (args : Args) : Outcome :=
  match autopep8_ensure_version env args.autopep8_command with
  | .error e => .crash e
  | .ok none => .exitVersionNone
  | .ok (some version) =>
    if verLt version VERSION_MIN then
      .exitVersionOld version
    else
      let warned := verLt VERSION_MAX_RECOMMENDED version
      let use_default_paths := !(!args.paths.isEmpty || args.changed_only)
      let paths := compute_paths env.isfile env.sep args.paths use_default_paths
      let files :=
        filter_files (source_files_from_git (env.git_output paths args.changed_only))
      if files.isEmpty then .done warned none else .done warned (some files)

end Autopep8

namespace Autopep8

/-! ## Helper lemmas -/

/-- Whenever `main` invokes the formatter, the file list it passes is
exactly the filtered git enumeration of the computed paths. -/
theorem invokedFiles_eq (env : Env) (args : Args) (fs : List String)
    (h : invokedFiles (main env args) = some fs) :
    fs = filter_files (source_files_from_git (env.git_output
      (compute_paths env.isfile env.sep args.paths
        (!(!args.paths.isEmpty || args.changed_only))) args.changed_only)) := by
  unfold main at h
  split at h
  · simp [invokedFiles] at h
  · simp [invokedFiles] at h
  · split at h
    · simp [invokedFiles] at h
    · simp only [] at h
      split at h
      · simp [invokedFiles] at h
      · simp [invokedFiles] at h
        simp only [Bool.not_or, Bool.not_not]
        exact h.symm

/-- Membership in the filtered file list forces the suffix test and the
exclusion test of lines 168-169. -/
theorem mem_filter_files (f : String) (l : List String) (h : f ∈ filter_files l) :
    endswithAny f extensions = true ∧ ignore_files.contains f = false := by
  unfold filter_files at h
  have := (List.mem_filter.mp h).2
  simp only [Bool.and_eq_true, Bool.not_eq_true'] at this
  exact this

/-- Python tuple `<` is asymmetric. -/
theorem verLt_asymm (a b : List Nat) (h : verLt a b = true) : verLt b a = false := by
  induction a generalizing b with
  | nil =>
    cases b with
    | nil => simp [verLt] at h
    | cons y ys => simp [verLt]
  | cons x xs ih =>
    cases b with
    | nil => simp [verLt] at h
    | cons y ys =>
      simp only [verLt] at h ⊢
      by_cases hxy : x < y
      · simp [hxy, Nat.lt_asymm hxy]
      · by_cases hyx : y < x
        · simp [hxy, hyx] at h
        · simp only [hxy, hyx, if_false] at h ⊢
          exact ih ys h

/-! ## Concrete environments and arguments used as witnesses -/

/-- Arguments as `argparse_create` produces them with no flags and no
positional paths. -/
def default_args : Args :=
  { changed_only := false, autopep8_command := "autopep8", paths := [] }

/-- A host where the fallback `autopep8` reports version 1.5.9 and git
lists one Python file. -/
def env_old : Env where
  exists_path := fun _ => false
  isfile := fun _ => false
  sep := "/"
  run_version := fun _ => some "autopep8 1.5.9 (pycodestyle: 2.9.1)"
  git_output := fun _ _ => "a.py" ++ "\x00"

/-- A host where no formatter candidate can be executed at all: every
`--version` probe raises `FileNotFoundError`. -/
def env_no_formatter : Env where
  exists_path := fun _ => false
  isfile := fun _ => false
  sep := "/"
  run_version := fun _ => none
  git_output := fun _ _ => ""

/-- A host with a good formatter (1.6.0) where git lists no Python file,
so the filtered list is empty. -/
def env_no_py : Env where
  exists_path := fun _ => false
  isfile := fun _ => false
  sep := "/"
  run_version := fun _ => some "autopep8 1.6.0 (pycodestyle: 2.9.1)"
  git_output := fun _ _ => "main.c" ++ "\x00"

/-- A host with a good formatter (1.6.0) where git lists the excluded
generated file alongside an ordinary Python file. -/
def env_with_ignored : Env where
  exists_path := fun _ => false
  isfile := fun _ => false
  sep := "/"
  run_version := fun _ => some "autopep8 1.6.0 (pycodestyle: 2.9.1)"
  git_output := fun _ _ =>
    "a.py" ++ "\x00" ++ "release/scripts/modules/rna_manual_reference.py" ++ "\x00"

/-- A host whose formatter reports 1.6.1, above the recommended maximum. -/
def env_recent : Env where
  exists_path := fun _ => false
  isfile := fun _ => false
  sep := "/"
  run_version := fun _ => some "autopep8 1.6.1 (pycodestyle: 2.9.1)"
  git_output := fun _ _ => "a.py" ++ "\x00"

/-- A host with a good formatter where git lists a Python and a non-Python
file; the NUL-terminated output also yields a trailing empty entry. -/
def env_mixed : Env where
  exists_path := fun _ => false
  isfile := fun _ => false
  sep := "/"
  run_version := fun _ => some "autopep8 1.6.0 (pycodestyle: 2.9.1)"
  git_output := fun _ _ => "a.py" ++ "\x00" ++ "b.txt" ++ "\x00"

/-! ## Claims -/

/-- C1: if the detected version tuple is strictly below `VERSION_MIN`,
`main` terminates with exit code 1 and the formatter is never invoked. -/
theorem below_min_exits_one_without_formatting (env : Env) (args : Args)
    (v : List Nat)
    (hv : autopep8_ensure_version env args.autopep8_command = .ok (some v))
    (hlt : verLt v VERSION_MIN = true) :
    exitCode (main env args) = 1 ∧ invokedFiles (main env args) = none := by
  unfold main
  rw [hv]
  simp [hlt, exitCode, invokedFiles]

/-- Witness for C1: version 1.5.9 is detected, git would list a Python
file, yet the run exits 1 with no formatter invocation. -/
theorem below_min_exits_one_without_formatting_witness :
    exitCode (main env_old default_args) = 1 ∧
      invokedFiles (main env_old default_args) = none :=
  below_min_exits_one_without_formatting env_old default_args [1, 5, 9] rfl rfl

/-- C2: the `--version` output `"autopep8 1.6.0 (pycodestyle: 2.9.1)"`
parses to `(1, 6, 0)`, and an output carrying a pre-release suffix,
`"1.6.0-beta"`, also parses to `(1, 6, 0)`. -/
theorem version_parsing_examples :
    parse_version (some "autopep8 1.6.0 (pycodestyle: 2.9.1)") = .ok (some [1, 6, 0]) ∧
      parse_version (some "1.6.0-beta") = .ok (some [1, 6, 0]) :=
  ⟨rfl, rfl⟩

/-- C3 (code bug): when no candidate command can be executed at all,
`version_output` is still `None` at line 81 and `version_output.split()`
raises an uncaught `AttributeError`; the explanatory
`"Unable to detect 'autopep8 --version'"` path of lines 142-144 is never
reached. -/
theorem no_candidate_crashes_with_attribute_error :
    main env_no_formatter default_args = .crash PyError.attributeError := rfl

/-- C4: when the filtered file list is empty, `main` returns normally
(exit code 0) and the formatter is not invoked. -/
theorem empty_file_list_exits_zero (env : Env) (args : Args) (v : List Nat)
    (hv : autopep8_ensure_version env args.autopep8_command = .ok (some v))
    (hmin : verLt v VERSION_MIN = false)
    (hempty : filter_files (source_files_from_git (env.git_output
      (compute_paths env.isfile env.sep args.paths
        (!(!args.paths.isEmpty || args.changed_only))) args.changed_only)) = []) :
    exitCode (main env args) = 0 ∧ invokedFiles (main env args) = none := by
  have hempty' := hempty
  simp only [Bool.not_or, Bool.not_not] at hempty'
  unfold main
  rw [hv]
  simp [hmin, exitCode, invokedFiles, hempty']

/-- Witness for C4: version 1.6.0 and a git listing with no Python file;
the run exits 0 without invoking the formatter. -/
theorem empty_file_list_exits_zero_witness :
    exitCode (main env_no_py default_args) = 0 ∧
      invokedFiles (main env_no_py default_args) = none :=
  empty_file_list_exits_zero env_no_py default_args [1, 6, 0] rfl rfl rfl

/-- C5: the excluded generated file is never among the files passed to the
formatter, whatever the git enumeration returned. -/
theorem ignored_file_never_formatted (env : Env) (args : Args) (fs : List String)
    (h : invokedFiles (main env args) = some fs) :
    "release/scripts/modules/rna_manual_reference.py" ∉ fs := by
  intro hmem
  rw [invokedFiles_eq env args fs h] at hmem
  have := (mem_filter_files _ _ hmem).2
  simp [ignore_files] at this

/-- Witness for C5: git lists the excluded file next to `a.py`; the
formatter is invoked on `["a.py"]` only, and the theorem applies to that
invocation. -/
theorem ignored_file_never_formatted_witness :
    "release/scripts/modules/rna_manual_reference.py" ∉ ["a.py"] :=
  ignored_file_never_formatted env_with_ignored default_args ["a.py"] rfl

/-- C6: with `use_default_paths` true, `compute_paths` returns exactly the
fixed default directory list, whatever `paths` holds, up to host
path-separator normalization. -/
theorem default_paths_override (isfile : String → Bool) (sep : String)
    (paths : List String) :
    compute_paths isfile sep paths true =
      if sep ≠ "/" then default_paths.map (pyReplaceSlash sep) else default_paths :=
  rfl

/-- C7: with `use_default_paths` false (and the canonical separator), a
user path is kept iff it is not an existing file or ends in `".py"`:
directories and non-existing paths pass through, existing files with an
unsupported suffix are dropped. -/
theorem user_path_filtering (isfile : String → Bool) (paths : List String)
    (p : String) (hp : p ∈ paths) :
    p ∈ compute_paths isfile "/" paths false ↔
      (isfile p = false ∨ pyEndsWith p ".py" = true) := by
  unfold compute_paths compute_paths_unnormalized
  simp [List.mem_filter, hp, endswithAny, extensions]

/-- Witness for C7: the directory argument `"doc"` (not a file) passes
through the filter. -/
theorem user_path_filtering_witness :
    "doc" ∈ compute_paths (fun _ => false) "/" ["doc"] false ↔
      ((fun (_ : String) => false) "doc" = false ∨ pyEndsWith "doc" ".py" = true) :=
  user_path_filtering (fun _ => false) ["doc"] "doc" (by simp)

/-- C8: a detected version strictly above `VERSION_MAX_RECOMMENDED` only
triggers the warning: the run is not fatal, and with a nonempty filtered
file list the formatter is still invoked. -/
theorem too_recent_warns_and_continues (env : Env) (args : Args) (v : List Nat)
    (hv : autopep8_ensure_version env args.autopep8_command = .ok (some v))
    (hgt : verLt VERSION_MAX_RECOMMENDED v = true)
    (hne : filter_files (source_files_from_git (env.git_output
      (compute_paths env.isfile env.sep args.paths
        (!(!args.paths.isEmpty || args.changed_only))) args.changed_only)) ≠ []) :
    exitCode (main env args) = 0 ∧ warnedTooRecent (main env args) = true ∧
      invokedFiles (main env args) =
        some (filter_files (source_files_from_git (env.git_output
          (compute_paths env.isfile env.sep args.paths
            (!(!args.paths.isEmpty || args.changed_only))) args.changed_only))) := by
  have hmin : verLt v VERSION_MIN = false := verLt_asymm _ _ hgt
  unfold main
  rw [hv]
  simp only [hmin, Bool.false_eq_true, if_false, hgt]
  split
  · next hcond =>
    rw [List.isEmpty_iff] at hcond
    exact absurd hcond hne
  · simp [exitCode, warnedTooRecent, invokedFiles]

/-- Witness for C8: version 1.6.1 is detected; the run warns, exits 0 and
formats `a.py`. -/
theorem too_recent_warns_and_continues_witness :
    exitCode (main env_recent default_args) = 0 ∧
      warnedTooRecent (main env_recent default_args) = true ∧
      invokedFiles (main env_recent default_args) =
        some (filter_files (source_files_from_git (env_recent.git_output
          (compute_paths env_recent.isfile env_recent.sep default_args.paths
            (!(!default_args.paths.isEmpty || default_args.changed_only)))
          default_args.changed_only))) :=
  too_recent_warns_and_continues env_recent default_args [1, 6, 1] rfl rfl (by decide)

/-- C9: every file passed to the formatter ends with `".py"`; in
particular the empty string produced by the trailing NUL of the git
output is never passed. -/
theorem formatted_files_end_in_py (env : Env) (args : Args) (fs : List String)
    (f : String) (h : invokedFiles (main env args) = some fs) (hf : f ∈ fs) :
    pyEndsWith f ".py" = true ∧ f ≠ "" := by
  rw [invokedFiles_eq env args fs h] at hf
  have h1 := (mem_filter_files _ _ hf).1
  simp only [endswithAny, extensions, List.any_cons, List.any_nil, Bool.or_false] at h1
  refine ⟨h1, ?_⟩
  intro hf0
  rw [hf0] at h1
  simp [pyEndsWith, List.isSuffixOf] at h1

/-- Witness for C9: git lists `a.py`, `b.txt` and the trailing empty
entry; the formatter receives exactly `["a.py"]`, whose member ends in
`".py"` and is nonempty. -/
theorem formatted_files_end_in_py_witness :
    pyEndsWith "a.py" ".py" = true ∧ "a.py" ≠ "" :=
  formatted_files_end_in_py env_mixed default_args ["a.py"] "a.py" rfl (by decide)

/-- C10: with `use_default_paths` false, path resolution before separator
normalization only removes elements: its output is a sublist of the
input. -/
theorem user_paths_sublist (isfile : String → Bool) (paths : List String) :
    List.Sublist (compute_paths_unnormalized isfile paths false) paths :=
  List.filter_sublist paths

end Autopep8
